import Mathlib

set_option maxRecDepth 100000

/-
  Verification development for the webscrap-fast-api repository.

  The Python modules models.py, config.py, scraper.py, routes.py and
  main.py are shallowly embedded below.  Stateful code (the module-level
  cache STOCK_CACHE, the engine-call and webhook-post counters, the
  ordered effect trace of a request) is embedded by explicit state
  passing over the SysState record.  External collaborators (the
  crawl4ai engine, the DOM query libraries, the outbound HTTP client,
  wall-clock time) are parameters of the model: an engine outcome per
  call index, a DOM evaluation per selector expression, a success bit
  per webhook post attempt, and an explicit integral timestamp.
-/

/-- A scalar JSON-like value as produced by the extraction pipeline. -/
inductive ScalarV where
  | null
  | str (s : String)
  | strs (vs : List String)
  | int (n : Int)
  | boolv (b : Bool)
deriving DecidableEq, Repr

/-- A field value stored in a parsed-data dictionary: either a scalar or a
flat object of scalars (used for ai_extraction and structured_data). -/
inductive FieldValue where
  | scalar (v : ScalarV)
  | obj (kvs : List (String × ScalarV))
deriving DecidableEq, Repr

/-- A Python dict of extraction results, as an insertion-ordered
association list. -/
def PData : Type := List (String × FieldValue)

instance : DecidableEq PData := by
  unfold PData
  infer_instance

instance : Repr PData := by
  unfold PData
  infer_instance

/-- Lookup in an insertion-ordered association list (Python dict get). -/
def alistGet {α : Type} : List (String × α) → String → Option α
  | [], _ => none
  | (k2, v) :: rest, k => if k2 = k then some v else alistGet rest k

/-- Assignment in an insertion-ordered association list (Python dict
item assignment: overwrite in place, else append). -/
def alistSet {α : Type} : List (String × α) → String → α → List (String × α)
  | [], k, v => [(k, v)]
  | (k2, v2) :: rest, k, v =>
      if k2 = k then (k, v) :: rest else (k2, v2) :: alistSet rest k v

/-- models.py ScrapeSelector.  The Python field named attribute is
called attr here. -/
structure ScrapeSelector where
  name : String
  selector : String
  attr : Option String := none
  is_xpath : Bool := false
deriving DecidableEq, Repr

/-- models.py AIExtractionConfig. -/
structure AIExtractionConfig where
  extract_entities : Bool := false
  extract_sentiment : Bool := false
  extract_keywords : Bool := false
  extract_summary : Bool := false
  custom_prompt : Option String := none
deriving DecidableEq, Repr

/-- models.py ScrapeRequest.  URLs are plain strings; pydantic URL
validation happens before any code modelled here runs.  max_retries is
an Int because Python allows nonpositive values. -/
structure ScrapeRequest where
  url : String
  selectors : Option (List ScrapeSelector) := none
  ai_extraction : Option AIExtractionConfig := none
  extract_structured_data : Bool := false
  extract_links : Bool := false
  extract_images : Bool := false
  extract_text : Bool := false
  webhook : Option String := none
  cache_key : Option String := none
  max_retries : Int := 3
deriving DecidableEq, Repr

/-- models.py ScrapeResponse. -/
structure ScrapeResponse where
  success : Bool
  data : Option PData := none
  error : Option String := none
  webhook : Option String := none
  task_id : Option Nat := none
  scraped_on : Option FieldValue := none
deriving DecidableEq, Repr

/-- The result object returned by the crawl4ai engine call.  Every field
beyond success, error_message and html is optional: hasattr probing in
the source is modelled by Option. -/
structure CrawlResult where
  success : Bool
  error_message : String := ""
  html : String := ""
  title : Option String := none
  url : Option String := none
  links : Option (List String) := none
  images : Option (List String) := none
  structured_data : Option (List (String × ScalarV)) := none
  cleaned_html : Option String := none
  entities : Option (List String) := none
  sentiment : Option String := none
  keywords : Option (List String) := none
  summary : Option String := none
  extracted_content : Option String := none
deriving DecidableEq, Repr

/-- Outcome of one crawler.arun call: either it returned a result object
(whose success flag may be false) or it raised an exception. -/
inductive EngineOutcome where
  | ret (r : CrawlResult)
  | raised (msg : String)
deriving DecidableEq, Repr

/-- A DOM element as seen through the query libraries: its text content
and its attributes. -/
structure Element where
  text : String
  attrs : List (String × String) := []
deriving DecidableEq, Repr

/-- Outcome of evaluating one selector expression against the page. -/
inductive SelectorEval where
  | raised (msg : String)
  | elems (es : List Element)
deriving DecidableEq, Repr

/-- The DOM query libraries (BeautifulSoup for CSS, lxml for XPath) as
an environment mapping selector expressions to evaluation outcomes. -/
structure DomEnv where
  css : String → SelectorEval
  xpath : String → SelectorEval

/-- The external world of one run: the engine outcome of the k-th engine
call overall, and the DOM environment of the fetched page. -/
structure ScrapeEnv where
  engine : Nat → EngineOutcome
  dom : DomEnv

/-- Exceptions that cross function boundaries in the embedded code. -/
inductive PyExn where
  | http (status : Nat) (detail : String)
  | other (msg : String)
deriving DecidableEq, Repr

/-- str(e) for an embedded exception; Starlette HTTPException renders as
statusCode colon detail. -/
def pyStrExn : PyExn → String
  | .http s d => toString s ++ ": " ++ d
  | .other m => m

/-- Result of an embedded Python function: a normal return value or a
raised exception. -/
inductive PyResult (α : Type) where
  | val (a : α)
  | exn (e : PyExn)
deriving DecidableEq, Repr

/-- One observable effect of a run, in execution order.  guarded marks
the single await point that sits under a bare except clause in
with_webhook (the best-effort error-payload post), which would swallow a
cancellation delivered there. -/
inductive EvtKind where
  | engineCall (k : Nat)
  | sleepFor (secs : Nat)
  | postTo (url : String) (payload : Option PData)
deriving DecidableEq, Repr

structure Evt where
  kind : EvtKind
  guarded : Bool := false
deriving DecidableEq, Repr

def EvtKind.isPost : EvtKind → Bool
  | .postTo _ _ => true
  | _ => false

/-- The mutable world threaded through the embedded code: the global
STOCK_CACHE, the number of engine calls and webhook post attempts made
so far, and the ordered trace of effects. -/
structure SysState where
  cache : List (String × PData) := []
  engineCalls : Nat := 0
  postCalls : Nat := 0
  trace : List Evt := []
deriving DecidableEq, Repr

/-- The durations of the sleep effects in a trace, in order. -/
def sleepsOf (evts : List Evt) : List Nat :=
  evts.filterMap (fun e => match e.kind with | .sleepFor s => some s | _ => none)

/-- Python str.strip, the whitespace trim applied to extracted text
(String.trim of the library does not reduce definitionally, so the model
carries its own executable copy). -/
def pyStrip (s : String) : String :=
  String.mk (((s.data.dropWhile Char.isWhitespace).reverse.dropWhile
    Char.isWhitespace).reverse)

/-- Python str.upper over the ASCII symbols used here. -/
def pyUpper (s : String) : String := String.mk (s.data.map Char.toUpper)

/-- Truthiness filter for attribute extraction, scraper.py lines 131 and
144: keep each match whose attribute is present and a nonempty string. -/
def attrValues (es : List Element) (a : String) : List String :=
  es.filterMap (fun e =>
    match alistGet e.attrs a with
    | some v => if v = "" then none else some v
    | none => none)

/-- Per-selector extraction, scraper.py lines 122 to 154.  A DOM error is
caught and yields null; no matches yield null; attribute mode collects
truthy attribute values; text mode collects trimmed text with empty
strings dropped (XPath additionally pre-filters elements whose raw text
content is falsy before stripping). -/
def extractSelector (dom : DomEnv) (sc : ScrapeSelector) : FieldValue :=
  match (if sc.is_xpath then dom.xpath sc.selector else dom.css sc.selector) with
  | .raised _ => .scalar .null
  | .elems es =>
    if es.isEmpty then .scalar .null
    else
      match sc.attr with
      | some a =>
        if a = "" then
          -- Python truthiness: an empty attribute name falls through to text mode
          if sc.is_xpath then
            .scalar (.strs (((es.filter (fun e => e.text != "")).map
              (fun e => pyStrip e.text)).filter (fun v => v != "")))
          else
            .scalar (.strs ((es.map (fun e => pyStrip e.text)).filter (fun v => v != "")))
        else .scalar (.strs (attrValues es a))
      | none =>
        if sc.is_xpath then
          .scalar (.strs (((es.filter (fun e => e.text != "")).map
            (fun e => pyStrip e.text)).filter (fun v => v != "")))
        else
          .scalar (.strs ((es.map (fun e => pyStrip e.text)).filter (fun v => v != "")))

/-- The selector portion of the pipeline: each selector writes its field
into the dict in order. -/
def selData (dom : DomEnv) : List ScrapeSelector → PData → PData
  | [], acc => acc
  | sc :: rest, acc => selData dom rest (alistSet acc sc.name (extractSelector dom sc))

/-- Option String rendered as a scalar value, null when absent. -/
def optStrV (o : Option String) : ScalarV :=
  match o with
  | some s => .str s
  | none => .null

/-- Append an engine-call event and bump the call counter. -/
def bumpEngine (st : SysState) : SysState :=
  { st with engineCalls := st.engineCalls + 1,
            trace := st.trace ++ [{ kind := .engineCall st.engineCalls }] }

/-- Append a sleep event. -/
def pushSleep (st : SysState) (s : Nat) : SysState :=
  { st with trace := st.trace ++ [{ kind := .sleepFor s }] }

/-- Append a post event (guarded when the awaited post sits under a bare
except clause) and bump the post counter. -/
def pushPost (st : SysState) (u : String) (payload : Option PData) (g : Bool) : SysState :=
  { st with postCalls := st.postCalls + 1,
            trace := st.trace ++ [{ kind := .postTo u payload, guarded := g }] }

/-- Write one cache entry. -/
def setCache (st : SysState) (key : String) (d : PData) : SysState :=
  { st with cache := alistSet st.cache key d }

@[simp] theorem bumpEngine_cache (st : SysState) : (bumpEngine st).cache = st.cache := rfl

@[simp] theorem bumpEngine_postCalls (st : SysState) :
    (bumpEngine st).postCalls = st.postCalls := rfl

@[simp] theorem bumpEngine_engineCalls (st : SysState) :
    (bumpEngine st).engineCalls = st.engineCalls + 1 := rfl

@[simp] theorem bumpEngine_trace (st : SysState) :
    (bumpEngine st).trace = st.trace ++ [{ kind := .engineCall st.engineCalls }] := rfl

@[simp] theorem pushSleep_cache (st : SysState) (s : Nat) :
    (pushSleep st s).cache = st.cache := rfl

@[simp] theorem pushSleep_postCalls (st : SysState) (s : Nat) :
    (pushSleep st s).postCalls = st.postCalls := rfl

@[simp] theorem pushSleep_engineCalls (st : SysState) (s : Nat) :
    (pushSleep st s).engineCalls = st.engineCalls := rfl

@[simp] theorem pushSleep_trace (st : SysState) (s : Nat) :
    (pushSleep st s).trace = st.trace ++ [{ kind := .sleepFor s }] := rfl

@[simp] theorem pushPost_cache (st : SysState) (u : String) (p : Option PData) (g : Bool) :
    (pushPost st u p g).cache = st.cache := rfl

@[simp] theorem pushPost_engineCalls (st : SysState) (u : String) (p : Option PData) (g : Bool) :
    (pushPost st u p g).engineCalls = st.engineCalls := rfl

@[simp] theorem pushPost_postCalls (st : SysState) (u : String) (p : Option PData) (g : Bool) :
    (pushPost st u p g).postCalls = st.postCalls + 1 := rfl

@[simp] theorem pushPost_trace (st : SysState) (u : String) (p : Option PData) (g : Bool) :
    (pushPost st u p g).trace = st.trace ++ [{ kind := .postTo u p, guarded := g }] := rfl

@[simp] theorem setCache_cache (st : SysState) (key : String) (d : PData) :
    (setCache st key d).cache = alistSet st.cache key d := rfl

@[simp] theorem setCache_engineCalls (st : SysState) (key : String) (d : PData) :
    (setCache st key d).engineCalls = st.engineCalls := rfl

@[simp] theorem setCache_postCalls (st : SysState) (key : String) (d : PData) :
    (setCache st key d).postCalls = st.postCalls := rfl

@[simp] theorem setCache_trace (st : SysState) (key : String) (d : PData) :
    (setCache st key d).trace = st.trace := rfl

/-- scraper.py _extract_data_from_result.  Flag extractors pass engine
fields through (hasattr probing as Option, with the source defaults);
the ai block builds a flat dict, and a truthy custom prompt triggers one
extra engine call whose failure replaces the whole ai dict with an error
object. -/
def _extract_data_from_result (env : ScrapeEnv) (r : CrawlResult)
    (req : ScrapeRequest) (st : SysState) : PData × SysState :=
  let d1 : PData :=
    match req.selectors with
    | some scs => selData env.dom scs []
    | none => []
  let d2 := if req.extract_structured_data then
      alistSet d1 "structured_data" (.obj (r.structured_data.getD [])) else d1
  let d3 := if req.extract_links then
      alistSet d2 "links" (.scalar (.strs (r.links.getD []))) else d2
  let d4 := if req.extract_images then
      alistSet d3 "images" (.scalar (.strs (r.images.getD []))) else d3
  let d5 := if req.extract_text then
      alistSet d4 "clean_text" (.scalar (.str (r.cleaned_html.getD r.html))) else d4
  match req.ai_extraction with
  | none => (d5, st)
  | some ai =>
    let a1 : List (String × ScalarV) :=
      if ai.extract_entities then alistSet [] "entities" (.strs (r.entities.getD [])) else []
    let a2 := if ai.extract_sentiment then alistSet a1 "sentiment" (optStrV r.sentiment) else a1
    let a3 := if ai.extract_keywords then alistSet a2 "keywords" (.strs (r.keywords.getD [])) else a2
    let a4 := if ai.extract_summary then alistSet a3 "summary" (optStrV r.summary) else a3
    match ai.custom_prompt with
    | none => (alistSet d5 "ai_extraction" (.obj a4), st)
    | some p =>
      if p = "" then (alistSet d5 "ai_extraction" (.obj a4), st)
      else
        match env.engine st.engineCalls, bumpEngine st with
        | .ret r2, st1 =>
          (alistSet d5 "ai_extraction"
            (.obj (alistSet a4 "custom_extraction" (optStrV r2.extracted_content))), st1)
        | .raised m, st1 =>
          (alistSet d5 "ai_extraction" (.obj [("error", .str m)]), st1)

/-- Stamp the metadata fields, scraper.py lines 57 to 60. -/
def stampMeta (d : PData) (now : Int) (u : String) : PData :=
  alistSet (alistSet (alistSet d "_scraped_on" (.scalar (.int now)))
    "_url" (.scalar (.str u))) "_crawl4ai_used" (.scalar (.boolv true))

/-- The retry loop of scrape_dynamic, scraper.py lines 30 to 73.  The
first Nat is the current attempt index, the second the number of
remaining attempts.  A failing attempt (result.success false, or a
raised exception) sleeps 2 to the power attempt and retries while
attempts remain; the final failure raises HTTPException 500 wrapping the
last cause (the success-false raise on the last attempt is itself caught
by the generic except and wrapped a second time, as in the source).  A
successful attempt extracts, stamps metadata, writes the cache and
returns.  Falling off the loop (zero attempts) returns Python None. -/
def scrapeLoop (env : ScrapeEnv) (req : ScrapeRequest) (now : Int) (key : String) :
    Nat → Nat → SysState → PyResult (Option PData) × SysState
  | _, 0, st => (.val none, st)
  | attempt, n + 1, st =>
    let st1 := bumpEngine st
    match env.engine st.engineCalls with
    | .raised msg =>
      if n = 0 then (.exn (.http 500 ("Scraping failed: " ++ msg)), st1)
      else scrapeLoop env req now key (attempt + 1) n (pushSleep st1 (2 ^ attempt))
    | .ret r =>
      if r.success = false then
        if n = 0 then
          (.exn (.http 500 ("Scraping failed: 500: crawl4ai failed: " ++ r.error_message)), st1)
        else scrapeLoop env req now key (attempt + 1) n (pushSleep st1 (2 ^ attempt))
      else
        let pr := _extract_data_from_result env r req st1
        let pd := stampMeta pr.1 now req.url
        (.val (some pd), setCache pr.2 key pd)

/-- A stand-in for the Python builtin hash on strings (the runtime value
is process-seeded SipHash; any fixed deterministic function of the
string captures the structure of the key derivation). -/
def pyHash (s : String) : Nat :=
  s.data.foldl (fun h c => (h * 31 + c.toNat) % 65521) 5381

/-- A serialization of the full request, standing in for
str(request.dict()): a function of every field, as in the source. -/
def reqDictStr (req : ScrapeRequest) : String :=
  let selStr := fun (sc : ScrapeSelector) =>
    "name=" ++ sc.name ++ ",selector=" ++ sc.selector ++ ",attr=" ++
      (sc.attr.getD "None") ++ ",is_xpath=" ++ toString sc.is_xpath
  let aiStr := fun (ai : AIExtractionConfig) =>
    "entities=" ++ toString ai.extract_entities ++ ",sentiment=" ++
      toString ai.extract_sentiment ++ ",keywords=" ++ toString ai.extract_keywords ++
      ",summary=" ++ toString ai.extract_summary ++ ",custom_prompt=" ++
      (ai.custom_prompt.getD "None")
  "url=" ++ req.url ++
  ";selectors=" ++ (match req.selectors with
    | some scs => String.intercalate "|" (scs.map selStr)
    | none => "None") ++
  ";ai_extraction=" ++ (match req.ai_extraction with
    | some ai => aiStr ai
    | none => "None") ++
  ";extract_structured_data=" ++ toString req.extract_structured_data ++
  ";extract_links=" ++ toString req.extract_links ++
  ";extract_images=" ++ toString req.extract_images ++
  ";extract_text=" ++ toString req.extract_text ++
  ";webhook=" ++ (req.webhook.getD "None") ++
  ";cache_key=" ++ (req.cache_key.getD "None") ++
  ";max_retries=" ++ toString req.max_retries

/-- Cache key derivation, scraper.py line 20: the explicit cache_key if
truthy, else url underscore hash of the full serialized request. -/
def cacheKeyOf (req : ScrapeRequest) : String :=
  match req.cache_key with
  | some k => if k = "" then req.url ++ "_" ++ toString (pyHash (reqDictStr req)) else k
  | none => req.url ++ "_" ++ toString (pyHash (reqDictStr req))

/-- The value of the _scraped_on stamp of a cache entry, when present
with the expected shape. -/
def scrapedOn (d : PData) : Option Int :=
  match alistGet d "_scraped_on" with
  | some (.scalar (.int t)) => some t
  | _ => none

/-- The cache freshness test of scraper.py line 24: the entry is served
iff it is truthy (nonempty dict) and now minus CACHE_TIME is strictly
below its _scraped_on stamp (CACHE_TIME is 60). -/
def freshDict (now : Int) (d : PData) : Bool :=
  !(List.isEmpty d) &&
    (match scrapedOn d with
     | some t => decide (now - 60 < t)
     | none => false)

/-- The cache-serve decision: some entry iff STOCK_CACHE holds a fresh
entry under the key. -/
def cacheServe (now : Int) (c : Option PData) : Option PData :=
  match c with
  | some d => if freshDict now d then some d else none
  | none => none

/-- scraper.py scrape_dynamic: compute the key, serve a fresh cache
entry if one exists, else run the retry loop over max_retries attempts
(a nonpositive max_retries yields an empty loop and a Python None
return). -/
def scrape_dynamic (env : ScrapeEnv) (now : Int) (req : ScrapeRequest)
    (st : SysState) : PyResult (Option PData) × SysState :=
  let key := cacheKeyOf req
  match cacheServe now (alistGet st.cache key) with
  | some d => (.val (some d), st)
  | none => scrapeLoop env req now key 0 req.max_retries.toNat st

/-- Python string slicing s[:n] (String.take of the library overflows
kernel reduction on long strings, so the model slices the character
list). -/
def pySlice (s : String) (n : Nat) : String := String.mk (s.data.take n)

/-- The html truncation of scraper.py line 100: first 1000 characters
plus an ellipsis marker when longer than 1000, the whole html
otherwise. -/
def fastHtml (h : String) : String :=
  if 1000 < h.length then pySlice h 1000 ++ "..." else h

/-- scraper.py scrape_fast.  One engine call; a raised exception or an
unsuccessful result raises HTTPException 500 (the inner success-false
raise is caught by the outer except and wrapped a second time, as in the
source); on success the basic fields and metadata are returned, with no
cache interaction. -/
def scrape_fast (env : ScrapeEnv) (now : Int) (u : String) (extract_basic : Bool)
    (st : SysState) : PyResult PData × SysState :=
  let st1 := bumpEngine st
  match env.engine st.engineCalls with
  | .raised msg => (.exn (.http 500 ("Fast scraping failed: " ++ msg)), st1)
  | .ret r =>
    if r.success = false then
      (.exn (.http 500 ("Fast scraping failed: 500: crawl4ai failed: " ++ r.error_message)), st1)
    else
      let d1 : PData :=
        if extract_basic then
          alistSet (alistSet (alistSet [] "html" (.scalar (.str (fastHtml r.html))))
            "title" (.scalar (optStrV r.title)))
            "url" (.scalar (.str (r.url.getD u)))
        else []
      let d2 := alistSet (alistSet (alistSet d1 "_scraped_on" (.scalar (.int now)))
        "_crawl4ai_used" (.scalar (.boolv true))) "_fast_mode" (.scalar (.boolv true))
      (.val d2, st1)

/-- The webhook delivery retry loop of with_webhook, scraper.py lines
249 to 257: up to retries attempts; a successful post returns at once; a
failed attempt is followed by a flat five-second sleep; exhaustion only
logs. -/
def deliveryLoop (post : Nat → Bool) (whUrl : String) (payload : Option PData) :
    Nat → SysState → SysState
  | 0, st => st
  | k + 1, st =>
    let ok := post st.postCalls
    let st1 := pushPost st whUrl payload false
    if ok then st1
    else deliveryLoop post whUrl payload k (pushSleep st1 5)

/-- The outbound-post collaborator: whether the k-th post attempt
overall succeeds. -/
structure WebhookEnv where
  post : Nat → Bool

/-- The error payload posted on scrape failure, scraper.py line 263. -/
def errPayload (e : PyExn) (u : String) : PData :=
  [("error", .scalar (.str (pyStrExn e))), ("url", .scalar (.str u))]

/-- scraper.py with_webhook: run the scrape; on a normal return post the
result (which is Python None when the retry loop was empty) through the
delivery retry loop; on a raised exception post a single best-effort
error payload when a webhook is set.  The error-payload post sits under
a bare except clause, marked guarded in the trace. -/
def with_webhook (env : ScrapeEnv) (wenv : WebhookEnv) (now : Int)
    (req : ScrapeRequest) (st : SysState) : SysState :=
  match scrape_dynamic env now req st with
  | (.val r, st1) => deliveryLoop wenv.post (req.webhook.getD "None") r 3 st1
  | (.exn e, st1) =>
    match req.webhook with
    | some w => pushPost st1 w (some (errPayload e req.url)) true
    | none => st1

/-- The events a with_webhook task appends to the trace, in order. -/
def webhookEvts (env : ScrapeEnv) (wenv : WebhookEnv) (now : Int)
    (req : ScrapeRequest) (st : SysState) : List Evt :=
  (with_webhook env wenv now req st).trace.drop st.trace.length

/-- The events the scrape phase alone appends to the trace: every await
point of the fetch-and-backoff part of the task. -/
def scrapePhaseEvts (env : ScrapeEnv) (now : Int) (req : ScrapeRequest)
    (st : SysState) : List Evt :=
  (scrape_dynamic env now req st).2.trace.drop st.trace.length

/-- BackgroundTask states, spec section 3. -/
inductive TaskState where
  | pending
  | running
  | succeeded
  | failed
  | cancelled
deriving DecidableEq, Repr

def isTerminal : TaskState → Bool
  | .succeeded => true
  | .failed => true
  | .cancelled => true
  | _ => false

/-- Modelled asyncio semantics: a cancellation delivered at the i-th
await point of the task (the i-th event of its trace) raises
CancelledError there; unless that await sits under a bare except clause
(the guarded flag), the error propagates through every except Exception
handler and the task ends Cancelled; a cancellation arriving after the
last await point leaves the task to complete. -/
def taskStateOnCancel (evts : List Evt) (i : Nat) : TaskState :=
  match evts[i]? with
  | some e => if e.guarded then .succeeded else .cancelled
  | none => .succeeded

/-- main.py app_shutdown: cancel every task that is not done, then
gather them all with return_exceptions, returning only once every task
is settled.  The returned list is the state of each task at the moment
shutdown returns. -/
def app_shutdown (tasks : List TaskState) : List TaskState :=
  tasks.map (fun t => if isTerminal t then t else .cancelled)

/-- A handler outcome: a structured response body, or an exception that
escaped the handler to the framework. -/
inductive Handled (β : Type) where
  | body (b : β)
  | fault (e : PyExn)
deriving DecidableEq, Repr

/-- The routes.py scrape endpoint returns its ScrapeResponse body plus
the background task it spawned, if any. -/
structure EndpointOut where
  resp : ScrapeResponse
  spawned : Option ScrapeRequest := none
deriving DecidableEq, Repr

/-- str(AttributeError) raised by result.get when scrape_dynamic
returned Python None.  The runtime message quotes NoneType and get; the
quote characters are omitted here. -/
def pyNoneGetMsg : String := "NoneType object has no attribute get"

/-- routes.py scrape_dynamic_endpoint.  A truthy webhook schedules
with_webhook as a background task and returns at once with no data and
no engine call; otherwise the scrape is awaited and every exception,
including the AttributeError from calling get on a Python None result,
is caught and rendered as a success-false body. -/
def scrape_dynamic_endpoint (env : ScrapeEnv) (now : Int) (req : ScrapeRequest)
    (st : SysState) (tid : Nat) : Handled EndpointOut × SysState :=
  match req.webhook with
  | some w =>
    (.body { resp := { success := true, webhook := some w, task_id := some tid },
             spawned := some req }, st)
  | none =>
    match scrape_dynamic env now req st with
    | (.val (some d), st1) =>
      (.body { resp := { success := true, data := some d,
                         scraped_on := alistGet d "_scraped_on" } }, st1)
    | (.val none, st1) =>
      (.body { resp := { success := false,
                         error := some ("Unexpected error: " ++ pyNoneGetMsg) } }, st1)
    | (.exn (.http _ detail), st1) =>
      (.body { resp := { success := false, error := some detail } }, st1)
    | (.exn (.other m), st1) =>
      (.body { resp := { success := false, error := some ("Unexpected error: " ++ m) } }, st1)

/-- The request scrape_simple builds, routes.py lines 53 to 64. -/
def simpleRequest (u : String) (extract_all : Bool) : ScrapeRequest :=
  { url := u,
    extract_structured_data := extract_all,
    extract_links := extract_all,
    extract_images := extract_all,
    extract_text := extract_all,
    ai_extraction :=
      if extract_all then
        some { extract_entities := extract_all, extract_keywords := extract_all,
               extract_summary := extract_all }
      else none }

/-- Response body of the simple and fast endpoints (plain dict in the
source). -/
structure SimpleResp where
  success : Bool
  url : Option String := none
  data : Option PData := none
  error : Option String := none
  scraped_on : Option FieldValue := none
  speed_optimized : Option Bool := none
deriving DecidableEq, Repr

/-- routes.py scrape_simple: every exception is caught and rendered via
str(e) in a success-false body. -/
def scrape_simple (env : ScrapeEnv) (now : Int) (u : String) (extract_all : Bool)
    (st : SysState) : Handled SimpleResp × SysState :=
  match scrape_dynamic env now (simpleRequest u extract_all) st with
  | (.val (some d), st1) =>
    (.body { success := true, url := some u, data := some d,
             scraped_on := alistGet d "_scraped_on" }, st1)
  | (.val none, st1) =>
    (.body { success := false, error := some pyNoneGetMsg }, st1)
  | (.exn e, st1) =>
    (.body { success := false, error := some (pyStrExn e) }, st1)

/-- routes.py scrape_fast_endpoint: every exception is caught and
rendered via str(e) in a success-false body. -/
def scrape_fast_endpoint (env : ScrapeEnv) (now : Int) (u : String)
    (extract_basic : Bool) (st : SysState) : Handled SimpleResp × SysState :=
  match scrape_fast env now u extract_basic st with
  | (.val d, st1) =>
    (.body { success := true, url := some u, data := some d,
             scraped_on := alistGet d "_scraped_on", speed_optimized := some true }, st1)
  | (.exn e, st1) =>
    (.body { success := false, error := some (pyStrExn e) }, st1)

/-- The fixed Yahoo Finance selector set of main.py scrape_stock. -/
def stockSelectors : List ScrapeSelector :=
  [ { name := "price", selector := "[data-testid=qsp-price]" },
    { name := "previous_close", selector := "//td[@data-test=PREV_CLOSE-value]", is_xpath := true },
    { name := "open", selector := "//td[@data-test=OPEN-value]", is_xpath := true },
    { name := "volume", selector := "//td[@data-test=TD_VOLUME-value]", is_xpath := true },
    { name := "market_cap", selector := "//td[@data-test=MARKET_CAP-value]", is_xpath := true } ]

/-- The request main.py scrape_stock builds for a symbol. -/
def stockRequest (symbol : String) (webhook : Option String) : ScrapeRequest :=
  { url := "https://finance.yahoo.com/quote/" ++ pyUpper symbol ++ "?p=" ++ pyUpper symbol,
    selectors := some stockSelectors,
    webhook := webhook }

/-- Body of the legacy stock endpoint. -/
inductive StockOut where
  | scheduled (webhook : String) (task_id : Nat) (spawned : ScrapeRequest)
  | payload (d : Option PData)
deriving DecidableEq, Repr

/-- main.py scrape_stock, lines 383 to 414.  There is no try or except:
with a webhook a task is scheduled and a handle returned; without one
the raw scrape_dynamic value is returned, and a raised exception escapes
to the framework.  An empty-string webhook query value, which would fail
pydantic URL validation before this logic runs, is outside the model. -/
def scrape_stock (env : ScrapeEnv) (now : Int) (symbol : String)
    (webhook : Option String) (st : SysState) (tid : Nat) :
    Handled StockOut × SysState :=
  match webhook with
  | some w => (.body (.scheduled w tid (stockRequest symbol (some w))), st)
  | none =>
    match scrape_dynamic env now (stockRequest symbol none) st with
    | (.val r, st1) => (.body (.payload r), st1)
    | (.exn e, st1) => (.fault e, st1)

/-- Lookup after assignment at the same key. -/
theorem alistGet_set_self {α : Type} (d : List (String × α)) (k : String) (v : α) :
    alistGet (alistSet d k v) k = some v := by
  induction d with
  | nil => simp [alistSet, alistGet]
  | cons hd t ih =>
    obtain ⟨k2, v2⟩ := hd
    by_cases hk : k2 = k <;> simp [alistSet, alistGet, hk, ih]

/-- Lookup after assignment at a different key. -/
theorem alistGet_set_ne {α : Type} (d : List (String × α)) (k k2 : String) (v : α)
    (h : k ≠ k2) : alistGet (alistSet d k v) k2 = alistGet d k2 := by
  induction d with
  | nil => simp [alistSet, alistGet, h]
  | cons hd t ih =>
    obtain ⟨k3, v3⟩ := hd
    by_cases hk : k3 = k
    · subst hk
      simp [alistSet, alistGet, h]
    · simp only [alistSet, if_neg hk]
      by_cases hk2 : k3 = k2
      · subst hk2
        simp [alistGet]
      · simp [alistGet, hk2, ih]

/-- Assignment never produces an empty dict. -/
theorem alistSet_ne_nil {α : Type} (d : List (String × α)) (k : String) (v : α) :
    alistSet d k v ≠ [] := by
  cases d with
  | nil => simp [alistSet]
  | cons hd t =>
    obtain ⟨k2, v2⟩ := hd
    by_cases hk : k2 = k <;> simp [alistSet, hk]

/-- Conditional assignment preserves lookups at other keys. -/
theorem alistGet_ite_set {α : Type} (c : Bool) (d : List (String × α)) (k k2 : String)
    (v : α) (h : k ≠ k2) :
    alistGet (if c then alistSet d k v else d) k2 = alistGet d k2 := by
  cases c <;> simp [alistGet_set_ne _ _ _ _ h]

/-- The metadata stamp sets _scraped_on to the call time. -/
theorem scrapedOn_stampMeta (d : PData) (now : Int) (u : String) :
    scrapedOn (stampMeta d now u) = some now := by
  unfold scrapedOn stampMeta
  rw [alistGet_set_ne _ _ _ _ (by decide), alistGet_set_ne _ _ _ _ (by decide),
    alistGet_set_self]

/-- The metadata stamp never produces an empty dict. -/
theorem stampMeta_ne_nil (d : PData) (now : Int) (u : String) :
    stampMeta d now u ≠ [] :=
  alistSet_ne_nil _ _ _

/-- The metadata stamp preserves lookups at other keys. -/
theorem alistGet_stampMeta_ne (d : PData) (now : Int) (u : String) (nm : String)
    (h1 : nm ≠ "_scraped_on") (h2 : nm ≠ "_url") (h3 : nm ≠ "_crawl4ai_used") :
    alistGet (stampMeta d now u) nm = alistGet d nm := by
  unfold stampMeta
  rw [alistGet_set_ne _ _ _ _ (Ne.symm h3), alistGet_set_ne _ _ _ _ (Ne.symm h2),
    alistGet_set_ne _ _ _ _ (Ne.symm h1)]

/-- The extraction pipeline leaves the state unchanged except possibly
for one extra engine call (the truthy custom prompt). -/
theorem extract_state_cases (env : ScrapeEnv) (r : CrawlResult) (req : ScrapeRequest)
    (st : SysState) :
    (_extract_data_from_result env r req st).2 = st ∨
      (_extract_data_from_result env r req st).2 = bumpEngine st := by
  unfold _extract_data_from_result
  cases hai : req.ai_extraction with
  | none => left; rfl
  | some ai =>
    cases hcp : ai.custom_prompt with
    | none => left; simp only [hcp]
    | some p =>
      by_cases hp : p = ""
      · left; simp [hcp, hp]
      · cases heng : env.engine st.engineCalls <;> right <;>
          simp only [hcp, heng, if_neg hp]

/-- A retryable engine outcome: a returned result with success false, or
a raised exception. -/
def isFailOutcome : EngineOutcome → Bool
  | .ret r => !r.success
  | .raised _ => true

/-- The cause string of a failing outcome: error_message of an
unsuccessful result, or str(e) of a raised exception. -/
def causeOf : EngineOutcome → String
  | .ret r => r.error_message
  | .raised m => m

/-- The HTTPException detail raised when the last attempt fails with the
given outcome, tracking the double wrap of the success-false case. -/
def finalFailMsg : EngineOutcome → String
  | .ret r => "Scraping failed: 500: crawl4ai failed: " ++ r.error_message
  | .raised m => "Scraping failed: " ++ m

/-- The trace an all-failing run of the retry loop appends: engine calls
interleaved with the exponential backoff sleeps, no sleep after the last
attempt. -/
def failEvts : Nat → Nat → Nat → List Evt
  | _, _, 0 => []
  | c, _, 1 => [{ kind := .engineCall c }]
  | c, a, n + 2 =>
    { kind := .engineCall c } :: { kind := .sleepFor (2 ^ a) } ::
      failEvts (c + 1) (a + 1) (n + 1)

/-- Unfolding the retry loop with no attempts left. -/
theorem scrapeLoop_zero (env : ScrapeEnv) (req : ScrapeRequest) (now : Int)
    (key : String) (a : Nat) (st : SysState) :
    scrapeLoop env req now key a 0 st = (.val none, st) := rfl

/-- Unfolding one iteration of the retry loop. -/
theorem scrapeLoop_succ (env : ScrapeEnv) (req : ScrapeRequest) (now : Int)
    (key : String) (a n : Nat) (st : SysState) :
    scrapeLoop env req now key a (n + 1) st =
      match env.engine st.engineCalls with
      | .raised msg =>
        if n = 0 then (.exn (.http 500 ("Scraping failed: " ++ msg)), bumpEngine st)
        else scrapeLoop env req now key (a + 1) n (pushSleep (bumpEngine st) (2 ^ a))
      | .ret r =>
        if r.success = false then
          if n = 0 then
            (.exn (.http 500 ("Scraping failed: 500: crawl4ai failed: " ++ r.error_message)),
             bumpEngine st)
          else scrapeLoop env req now key (a + 1) n (pushSleep (bumpEngine st) (2 ^ a))
        else
          (.val (some (stampMeta (_extract_data_from_result env r req (bumpEngine st)).1 now req.url)),
           setCache (_extract_data_from_result env r req (bumpEngine st)).2 key
             (stampMeta (_extract_data_from_result env r req (bumpEngine st)).1 now req.url)) := rfl

/-- When every attempt fails with a retryable outcome, the loop makes
exactly one engine call per attempt, sleeps two to the attempt between
consecutive attempts, and raises an HTTPException wrapping the final
cause. -/
theorem scrapeLoop_allFail (env : ScrapeEnv) (req : ScrapeRequest) (now : Int)
    (key : String) :
    ∀ n, 1 ≤ n → ∀ a st,
      (∀ k, k < n → isFailOutcome (env.engine (st.engineCalls + k)) = true) →
      scrapeLoop env req now key a n st =
        (.exn (.http 500 (finalFailMsg (env.engine (st.engineCalls + (n - 1))))),
         { st with engineCalls := st.engineCalls + n,
                   trace := st.trace ++ failEvts st.engineCalls a n }) := by
  intro n
  induction n with
  | zero => intro h; exact absurd h (by omega)
  | succ n ih =>
    intro _ a st hfail
    have h0 : isFailOutcome (env.engine st.engineCalls) = true := by
      have := hfail 0 (by omega)
      simpa using this
    cases n with
    | zero =>
      rw [scrapeLoop_succ]
      cases heng : env.engine st.engineCalls with
      | raised msg =>
        simp [bumpEngine, failEvts, finalFailMsg, heng]
      | ret r =>
        rw [heng] at h0
        have hs : r.success = false := by simpa [isFailOutcome] using h0
        simp [bumpEngine, failEvts, finalFailMsg, heng, hs]
    | succ m =>
      have ihres := ih (by omega) (a + 1) (pushSleep (bumpEngine st) (2 ^ a))
        (by
          intro k hk
          have harg : st.engineCalls + 1 + k = st.engineCalls + (k + 1) := by omega
          simp only [pushSleep_engineCalls, bumpEngine_engineCalls]
          rw [harg]
          exact hfail (k + 1) (by omega))
      have e1 : st.engineCalls + 1 + m = st.engineCalls + (m + 1) := by omega
      have e2 : st.engineCalls + 1 + (m + 1) = st.engineCalls + (m + 2) := by omega
      rw [scrapeLoop_succ]
      have hne : ¬(m + 1 = 0) := Nat.succ_ne_zero m
      cases heng : env.engine st.engineCalls with
      | raised msg =>
        simp only [if_neg hne]
        rw [ihres]
        simp only [pushSleep_engineCalls, pushSleep_cache, pushSleep_postCalls,
          pushSleep_trace, bumpEngine_engineCalls, bumpEngine_cache,
          bumpEngine_postCalls, bumpEngine_trace, e1, e2]
        simp [failEvts, List.append_assoc]
        rw [e1]
      | ret r =>
        rw [heng] at h0
        have hs : r.success = false := by simpa [isFailOutcome] using h0
        simp only [hs, if_neg hne]
        rw [ihres]
        simp only [pushSleep_engineCalls, pushSleep_cache, pushSleep_postCalls,
          pushSleep_trace, bumpEngine_engineCalls, bumpEngine_cache,
          bumpEngine_postCalls, bumpEngine_trace, e1, e2]
        simp [hs, failEvts, List.append_assoc]
        rw [e1]

/-- The backoff sleeps of an all-failing run are two to the power of the
attempt index, one per attempt except the last. -/
theorem sleepsOf_failEvts :
    ∀ n c a, sleepsOf (failEvts c a n) =
      (List.range' a (n - 1)).map (fun i => 2 ^ i) := by
  intro n
  induction n with
  | zero => intro c a; simp [failEvts, sleepsOf]
  | succ n ih =>
    intro c a
    cases n with
    | zero => simp [failEvts, sleepsOf]
    | succ m =>
      have hrec := ih (c + 1) (a + 1)
      simp only [failEvts]
      simp only [sleepsOf, List.filterMap_cons] at hrec ⊢
      simp only [Nat.add_sub_cancel] at hrec ⊢
      rw [List.range'_succ]
      simp [hrec]

/-- The extraction pipeline never touches the cache. -/
theorem extract_cache (env : ScrapeEnv) (r : CrawlResult) (req : ScrapeRequest)
    (st : SysState) : (_extract_data_from_result env r req st).2.cache = st.cache := by
  rcases extract_state_cases env r req st with h | h <;> rw [h] <;> simp

/-- The extraction pipeline never posts. -/
theorem extract_postCalls (env : ScrapeEnv) (r : CrawlResult) (req : ScrapeRequest)
    (st : SysState) : (_extract_data_from_result env r req st).2.postCalls = st.postCalls := by
  rcases extract_state_cases env r req st with h | h <;> rw [h] <;> simp

/-- The trace contribution of the extraction pipeline: nothing, or one
engine call. -/
theorem extract_trace_cases (env : ScrapeEnv) (r : CrawlResult) (req : ScrapeRequest)
    (st : SysState) :
    (_extract_data_from_result env r req st).2.trace = st.trace ∨
      (_extract_data_from_result env r req st).2.trace =
        st.trace ++ [{ kind := .engineCall st.engineCalls }] := by
  rcases extract_state_cases env r req st with h | h <;> rw [h] <;> simp

/-- A successful run of the retry loop writes exactly its returned
payload to the cache, stamps it with the call time, and the payload is a
nonempty dict. -/
theorem scrapeLoop_success (env : ScrapeEnv) (req : ScrapeRequest) (now : Int)
    (key : String) :
    ∀ n a st d st2,
      scrapeLoop env req now key a n st = (.val (some d), st2) →
      st2.cache = alistSet st.cache key d ∧ scrapedOn d = some now ∧ d ≠ [] := by
  intro n
  induction n with
  | zero =>
    intro a st d st2 h
    rw [scrapeLoop_zero] at h
    exact absurd (congrArg Prod.fst h) (by simp)
  | succ n ih =>
    intro a st d st2 h
    rw [scrapeLoop_succ] at h
    cases heng : env.engine st.engineCalls with
    | raised msg =>
      rw [heng] at h
      by_cases hn : n = 0
      · simp only [if_pos hn] at h
        exact absurd (congrArg Prod.fst h) (by simp)
      · simp only [if_neg hn] at h
        have hres := ih (a + 1) (pushSleep (bumpEngine st) (2 ^ a)) d st2 h
        simpa using hres
    | ret r =>
      rw [heng] at h
      by_cases hs : r.success = false
      · simp only [if_pos hs] at h
        by_cases hn : n = 0
        · simp only [if_pos hn] at h
          exact absurd (congrArg Prod.fst h) (by simp)
        · simp only [if_neg hn] at h
          have hres := ih (a + 1) (pushSleep (bumpEngine st) (2 ^ a)) d st2 h
          simpa using hres
      · simp only [if_neg hs] at h
        have h1 := congrArg Prod.fst h
        have h2 := congrArg Prod.snd h
        simp only at h1 h2
        have hd : stampMeta (_extract_data_from_result env r req (bumpEngine st)).1 now req.url = d := by
          have := h1
          simp only [PyResult.val.injEq, Option.some.injEq] at this
          exact this
        refine ⟨?_, ?_, ?_⟩
        · rw [← h2, ← hd]
          simp [extract_cache]
        · rw [← hd]
          exact scrapedOn_stampMeta _ _ _
        · rw [← hd]
          exact stampMeta_ne_nil _ _ _

/-- Every event the retry loop appends to the trace is an unguarded
non-post event: an engine call or a backoff sleep. -/
theorem scrapeLoop_trace (env : ScrapeEnv) (req : ScrapeRequest) (now : Int)
    (key : String) :
    ∀ n a st, ∃ new,
      (scrapeLoop env req now key a n st).2.trace = st.trace ++ new ∧
        ∀ e ∈ new, e.kind.isPost = false ∧ e.guarded = false := by
  intro n
  induction n with
  | zero =>
    intro a st
    exact ⟨[], by simp [scrapeLoop_zero], by simp⟩
  | succ n ih =>
    intro a st
    rw [scrapeLoop_succ]
    cases heng : env.engine st.engineCalls with
    | raised msg =>
      by_cases hn : n = 0
      · simp only [if_pos hn]
        exact ⟨[{ kind := .engineCall st.engineCalls }], by simp [bumpEngine],
          by simp [EvtKind.isPost]⟩
      · simp only [if_neg hn]
        obtain ⟨new2, hnew2, hprop⟩ := ih (a + 1) (pushSleep (bumpEngine st) (2 ^ a))
        refine ⟨{ kind := .engineCall st.engineCalls } ::
          { kind := .sleepFor (2 ^ a) } :: new2, ?_, ?_⟩
        · rw [hnew2]
          simp [List.append_assoc]
        · intro e he
          simp only [List.mem_cons] at he
          rcases he with rfl | rfl | he
          · simp [EvtKind.isPost]
          · simp [EvtKind.isPost]
          · exact hprop e he
    | ret r =>
      by_cases hs : r.success = false
      · simp only [if_pos hs]
        by_cases hn : n = 0
        · simp only [if_pos hn]
          exact ⟨[{ kind := .engineCall st.engineCalls }], by simp [bumpEngine],
            by simp [EvtKind.isPost]⟩
        · simp only [if_neg hn]
          obtain ⟨new2, hnew2, hprop⟩ := ih (a + 1) (pushSleep (bumpEngine st) (2 ^ a))
          refine ⟨{ kind := .engineCall st.engineCalls } ::
            { kind := .sleepFor (2 ^ a) } :: new2, ?_, ?_⟩
          · rw [hnew2]
            simp [List.append_assoc]
          · intro e he
            simp only [List.mem_cons] at he
            rcases he with rfl | rfl | he
            · simp [EvtKind.isPost]
            · simp [EvtKind.isPost]
            · exact hprop e he
      · simp only [if_neg hs]
        rcases extract_trace_cases env r req (bumpEngine st) with h | h
        · refine ⟨[{ kind := .engineCall st.engineCalls }], ?_, by simp [EvtKind.isPost]⟩
          simp only [setCache_trace, h, bumpEngine_trace]
        · refine ⟨[{ kind := .engineCall st.engineCalls },
            { kind := .engineCall (bumpEngine st).engineCalls }], ?_, by simp [EvtKind.isPost]⟩
          simp only [setCache_trace, h, bumpEngine_trace]
          simp [List.append_assoc]

/-- A fresh cache entry is served unchanged: no engine call, no write. -/
theorem scrape_dynamic_serve (env : ScrapeEnv) (now : Int) (req : ScrapeRequest)
    (st : SysState) (d : PData)
    (h : cacheServe now (alistGet st.cache (cacheKeyOf req)) = some d) :
    scrape_dynamic env now req st = (.val (some d), st) := by
  show (match cacheServe now (alistGet st.cache (cacheKeyOf req)) with
    | some d => (PyResult.val (some d), st)
    | none => scrapeLoop env req now (cacheKeyOf req) 0 req.max_retries.toNat st) =
    (PyResult.val (some d), st)
  rw [h]

/-- Without a fresh cache entry the call runs the retry loop. -/
theorem scrape_dynamic_miss (env : ScrapeEnv) (now : Int) (req : ScrapeRequest)
    (st : SysState)
    (h : cacheServe now (alistGet st.cache (cacheKeyOf req)) = none) :
    scrape_dynamic env now req st =
      scrapeLoop env req now (cacheKeyOf req) 0 req.max_retries.toNat st := by
  show (match cacheServe now (alistGet st.cache (cacheKeyOf req)) with
    | some d => (PyResult.val (some d), st)
    | none => scrapeLoop env req now (cacheKeyOf req) 0 req.max_retries.toNat st) =
    scrapeLoop env req now (cacheKeyOf req) 0 req.max_retries.toNat st
  rw [h]

/-- Selector extraction leaves fields of names not in the selector list
untouched. -/
theorem selData_notin (dom : DomEnv) :
    ∀ scs acc nm, nm ∉ scs.map ScrapeSelector.name →
      alistGet (selData dom scs acc) nm = alistGet acc nm := by
  intro scs
  induction scs with
  | nil => intro acc nm _; rfl
  | cons s t ih =>
    intro acc nm h
    simp only [List.map_cons, List.mem_cons] at h
    push_neg at h
    rw [selData, ih _ _ h.2, alistGet_set_ne _ _ _ _ (fun heq => h.1 heq.symm)]

/-- Each selector of a uniquely named list contributes exactly its own
extraction result under its own name. -/
theorem selData_lookup (dom : DomEnv) :
    ∀ scs acc sc, (scs.map ScrapeSelector.name).Nodup → sc ∈ scs →
      alistGet (selData dom scs acc) sc.name = some (extractSelector dom sc) := by
  intro scs
  induction scs with
  | nil => intro acc sc _ hmem; exact absurd hmem (List.not_mem_nil sc)
  | cons s t ih =>
    intro acc sc hnd hmem
    simp only [List.map_cons, List.nodup_cons] at hnd
    rcases List.mem_cons.mp hmem with rfl | hmem2
    · rw [selData, selData_notin dom t _ _ hnd.1, alistGet_set_self]
    · rw [selData]
      exact ih _ sc hnd.2 hmem2

/-- The flag and ai extractors never overwrite a field whose name avoids
their five reserved keys. -/
theorem extract_keeps (env : ScrapeEnv) (r : CrawlResult) (req : ScrapeRequest)
    (st : SysState) (nm : String)
    (h1 : nm ≠ "structured_data") (h2 : nm ≠ "links") (h3 : nm ≠ "images")
    (h4 : nm ≠ "clean_text") (h5 : nm ≠ "ai_extraction") :
    alistGet (_extract_data_from_result env r req st).1 nm =
      alistGet (match req.selectors with
        | some scs => selData env.dom scs []
        | none => ([] : PData)) nm := by
  unfold _extract_data_from_result
  cases hai : req.ai_extraction with
  | none =>
    simp only
    rw [alistGet_ite_set _ _ _ _ _ (Ne.symm h4), alistGet_ite_set _ _ _ _ _ (Ne.symm h3),
      alistGet_ite_set _ _ _ _ _ (Ne.symm h2), alistGet_ite_set _ _ _ _ _ (Ne.symm h1)]
    rfl
  | some ai =>
    cases hcp : ai.custom_prompt with
    | none =>
      simp only [hcp]
      rw [alistGet_set_ne _ _ _ _ (Ne.symm h5)]
      rw [alistGet_ite_set _ _ _ _ _ (Ne.symm h4), alistGet_ite_set _ _ _ _ _ (Ne.symm h3),
        alistGet_ite_set _ _ _ _ _ (Ne.symm h2), alistGet_ite_set _ _ _ _ _ (Ne.symm h1)]
      rfl
    | some p =>
      by_cases hp : p = ""
      · simp only [hcp, hp, if_true]
        rw [alistGet_set_ne _ _ _ _ (Ne.symm h5)]
        rw [alistGet_ite_set _ _ _ _ _ (Ne.symm h4), alistGet_ite_set _ _ _ _ _ (Ne.symm h3),
          alistGet_ite_set _ _ _ _ _ (Ne.symm h2), alistGet_ite_set _ _ _ _ _ (Ne.symm h1)]
        rfl
      · cases heng : env.engine st.engineCalls with
        | ret r2 =>
          simp only [hcp, heng, if_neg hp]
          rw [alistGet_set_ne _ _ _ _ (Ne.symm h5)]
          rw [alistGet_ite_set _ _ _ _ _ (Ne.symm h4), alistGet_ite_set _ _ _ _ _ (Ne.symm h3),
            alistGet_ite_set _ _ _ _ _ (Ne.symm h2), alistGet_ite_set _ _ _ _ _ (Ne.symm h1)]
          rfl
        | raised m =>
          simp only [hcp, heng, if_neg hp]
          rw [alistGet_set_ne _ _ _ _ (Ne.symm h5)]
          rw [alistGet_ite_set _ _ _ _ _ (Ne.symm h4), alistGet_ite_set _ _ _ _ _ (Ne.symm h3),
            alistGet_ite_set _ _ _ _ _ (Ne.symm h2), alistGet_ite_set _ _ _ _ _ (Ne.symm h1)]
          rfl

/-- Unfolding the delivery loop on a successful post attempt. -/
theorem deliveryLoop_first_ok (post : Nat → Bool) (whUrl : String)
    (payload : Option PData) (k : Nat) (st : SysState)
    (h : post st.postCalls = true) :
    deliveryLoop post whUrl payload (k + 1) st = pushPost st whUrl payload false := by
  rw [deliveryLoop]
  simp [h]

/-- Every state the delivery loop produces extends the trace. -/
theorem deliveryLoop_trace (post : Nat → Bool) (whUrl : String) (payload : Option PData) :
    ∀ k st, ∃ new, (deliveryLoop post whUrl payload k st).trace = st.trace ++ new := by
  intro k
  induction k with
  | zero => intro st; exact ⟨[], by simp [deliveryLoop]⟩
  | succ k ih =>
    intro st
    rw [deliveryLoop]
    by_cases h : post st.postCalls = true
    · exact ⟨[{ kind := .postTo whUrl payload }], by simp [h]⟩
    · obtain ⟨new2, hnew2⟩ := ih (pushSleep (pushPost st whUrl payload false) 5)
      refine ⟨{ kind := .postTo whUrl payload } :: { kind := .sleepFor 5 } :: new2, ?_⟩
      simp only [Bool.not_eq_true] at h
      simp [h, hnew2, List.append_assoc]

/-- Every event a scrape_dynamic call appends is an unguarded non-post
event. -/
theorem scrape_dynamic_trace (env : ScrapeEnv) (now : Int) (req : ScrapeRequest)
    (st : SysState) :
    ∃ new, (scrape_dynamic env now req st).2.trace = st.trace ++ new ∧
      ∀ e ∈ new, e.kind.isPost = false ∧ e.guarded = false := by
  cases h : cacheServe now (alistGet st.cache (cacheKeyOf req)) with
  | some d =>
    rw [scrape_dynamic_serve env now req st d h]
    exact ⟨[], by simp, by simp⟩
  | none =>
    rw [scrape_dynamic_miss env now req st h]
    exact scrapeLoop_trace env req now (cacheKeyOf req) req.max_retries.toNat 0 st

/-- The scrape phase of a run is the prefix of the trace it appends. -/
theorem scrapePhaseEvts_eq (env : ScrapeEnv) (now : Int) (req : ScrapeRequest)
    (st : SysState) :
    (scrape_dynamic env now req st).2.trace =
      st.trace ++ scrapePhaseEvts env now req st := by
  obtain ⟨new, hnew, _⟩ := scrape_dynamic_trace env now req st
  unfold scrapePhaseEvts
  rw [hnew, List.drop_left]

/-- No event of the scrape phase is a post, and none is guarded. -/
theorem scrapePhaseEvts_noPost (env : ScrapeEnv) (now : Int) (req : ScrapeRequest)
    (st : SysState) :
    ∀ e ∈ scrapePhaseEvts env now req st, e.kind.isPost = false ∧ e.guarded = false := by
  obtain ⟨new, hnew, hprop⟩ := scrape_dynamic_trace env now req st
  have : scrapePhaseEvts env now req st = new := by
    unfold scrapePhaseEvts
    rw [hnew, List.drop_left]
  rw [this]
  exact hprop

/-- The events of a whole with_webhook task decompose as the scrape
phase followed by the delivery phase. -/
theorem webhookEvts_decomp (env : ScrapeEnv) (wenv : WebhookEnv) (now : Int)
    (req : ScrapeRequest) (st : SysState) :
    ∃ rest, webhookEvts env wenv now req st = scrapePhaseEvts env now req st ++ rest := by
  cases hsc : scrape_dynamic env now req st with
  | mk res st1 =>
    have htr : st1.trace = st.trace ++ scrapePhaseEvts env now req st := by
      have h2 := scrapePhaseEvts_eq env now req st
      rw [hsc] at h2
      exact h2
    cases res with
    | val r =>
      obtain ⟨new, hnew⟩ := deliveryLoop_trace wenv.post (req.webhook.getD "None") r 3 st1
      refine ⟨new, ?_⟩
      unfold webhookEvts with_webhook
      rw [hsc]
      simp only
      rw [hnew, htr, List.append_assoc, List.drop_left]
    | exn e =>
      cases hw : req.webhook with
      | some w =>
        refine ⟨[{ kind := .postTo w (some (errPayload e req.url)), guarded := true }], ?_⟩
        unfold webhookEvts with_webhook
        rw [hsc]
        simp only [hw]
        rw [pushPost_trace, htr, List.append_assoc, List.drop_left]
      | none =>
        refine ⟨[], ?_⟩
        unfold webhookEvts with_webhook
        rw [hsc]
        simp only [hw]
        rw [htr, List.drop_left, List.append_nil]

/-- When the scrape succeeds and the first delivery attempt goes
through, the task trace is the scrape phase followed by exactly one post
of the payload to the webhook URL. -/
theorem webhookEvts_first_ok (env : ScrapeEnv) (wenv : WebhookEnv) (now : Int)
    (req : ScrapeRequest) (st st1 : SysState) (d : PData) (w : String)
    (hsc : scrape_dynamic env now req st = (.val (some d), st1))
    (hw : req.webhook = some w)
    (hpost : wenv.post st1.postCalls = true) :
    webhookEvts env wenv now req st =
      scrapePhaseEvts env now req st ++ [{ kind := .postTo w (some d) }] := by
  have htr : st1.trace = st.trace ++ scrapePhaseEvts env now req st := by
    have h2 := scrapePhaseEvts_eq env now req st
    rw [hsc] at h2
    exact h2
  have hdel : deliveryLoop wenv.post w (some d) 3 st1 = pushPost st1 w (some d) false := by
    show deliveryLoop wenv.post w (some d) (2 + 1) st1 = pushPost st1 w (some d) false
    exact deliveryLoop_first_ok wenv.post w (some d) 2 st1 hpost
  unfold webhookEvts with_webhook
  rw [hsc]
  simp only [hw, Option.getD_some]
  rw [hdel, pushPost_trace, htr, List.append_assoc, List.drop_left]

/-- A failing attempt with attempts remaining sleeps and retries. -/
theorem scrapeLoop_fail_step (env : ScrapeEnv) (req : ScrapeRequest) (now : Int)
    (key : String) (a n : Nat) (st : SysState)
    (h : isFailOutcome (env.engine st.engineCalls) = true) (hn : n ≠ 0) :
    scrapeLoop env req now key a (n + 1) st =
      scrapeLoop env req now key (a + 1) n (pushSleep (bumpEngine st) (2 ^ a)) := by
  rw [scrapeLoop_succ]
  cases heng : env.engine st.engineCalls with
  | raised msg => simp only [if_neg hn]
  | ret r =>
    rw [heng] at h
    have hs : r.success = false := by simpa [isFailOutcome] using h
    simp only [hs, if_neg hn, if_true]

/-- A successful attempt extracts, stamps and writes the cache. -/
theorem scrapeLoop_success_step (env : ScrapeEnv) (req : ScrapeRequest) (now : Int)
    (key : String) (a n : Nat) (st : SysState) (r : CrawlResult)
    (heng : env.engine st.engineCalls = .ret r) (hs : r.success = true) :
    scrapeLoop env req now key a (n + 1) st =
      (.val (some (stampMeta (_extract_data_from_result env r req (bumpEngine st)).1 now req.url)),
       setCache (_extract_data_from_result env r req (bumpEngine st)).2 key
         (stampMeta (_extract_data_from_result env r req (bumpEngine st)).1 now req.url)) := by
  rw [scrapeLoop_succ, heng]
  simp only [hs]
  simp

/-- Without a truthy custom prompt the extraction pipeline leaves the
state untouched. -/
theorem extract_state_nocustom (env : ScrapeEnv) (r : CrawlResult) (req : ScrapeRequest)
    (st : SysState)
    (h : (match req.ai_extraction with
          | some ai => ai.custom_prompt
          | none => none) = none) :
    (_extract_data_from_result env r req st).2 = st := by
  unfold _extract_data_from_result
  cases hai : req.ai_extraction with
  | none => rfl
  | some ai =>
    rw [hai] at h
    simp only at h
    simp only [h]

/-- DOM environment finding nothing anywhere. -/
def domEmpty : DomEnv := { css := fun _ => .elems [], xpath := fun _ => .elems [] }

/-- A successful engine result. -/
def okResult : CrawlResult := { success := true, html := "<html>ok</html>" }

/-- An unsuccessful engine result (retryable: success false). -/
def failResult : CrawlResult := { success := false, error_message := "timeout" }

/-- Engine that always succeeds. -/
def envOK : ScrapeEnv := { engine := fun _ => .ret okResult, dom := domEmpty }

/-- Engine that always raises. -/
def envRaise : ScrapeEnv := { engine := fun _ => .raised "boom", dom := domEmpty }

/-- Engine whose every result has success false. -/
def envFailAll : ScrapeEnv := { engine := fun _ => .ret failResult, dom := domEmpty }

/-- Engine that fails twice, then succeeds. -/
def envFailTwice : ScrapeEnv :=
  { engine := fun k => if k < 2 then .ret failResult else .ret okResult, dom := domEmpty }

/-- Outbound posts that always succeed. -/
def wenvOK : WebhookEnv := { post := fun _ => true }

/-- A minimal request with every default. -/
def reqX : ScrapeRequest := { url := "http://x" }

/-- The empty starting state. -/
def stEmpty : SysState := {}

/-- The payload a default scrape of reqX at time 100 produces. -/
def dVal : PData :=
  [("_scraped_on", .scalar (.int 100)), ("_url", .scalar (.str "http://x")),
   ("_crawl4ai_used", .scalar (.boolv true))]

/-- The state after that first scrape. -/
def st1Val : SysState :=
  { cache := [(cacheKeyOf reqX, dVal)], engineCalls := 1, postCalls := 0,
    trace := [{ kind := .engineCall 0 }] }

/-- A state holding one stale cache entry for reqX, stamped at time 10. -/
def dStale : PData := [("_scraped_on", .scalar (.int 10))]

def stStale : SysState := { cache := [(cacheKeyOf reqX, dStale)] }

/-- C1: a cache entry with now - scraped_at at least TTL (60) is never
served: the call proceeds to the retry loop instead.  And when a first
call misses the cache and succeeds, a second call for the same cache key
made while the entry is fresh returns exactly the cached payload and
leaves the state untouched: zero further engine calls, no cache write. -/
theorem claim_C1_cache_ttl :
    (∀ env now req st d t,
       alistGet st.cache (cacheKeyOf req) = some d →
       scrapedOn d = some t →
       60 ≤ now - t →
       scrape_dynamic env now req st =
         scrapeLoop env req now (cacheKeyOf req) 0 req.max_retries.toNat st) ∧
    (∀ env now1 now2 req req2 st d st1,
       alistGet st.cache (cacheKeyOf req) = none →
       scrape_dynamic env now1 req st = (.val (some d), st1) →
       cacheKeyOf req2 = cacheKeyOf req →
       now2 - 60 < now1 →
       scrape_dynamic env now2 req2 st1 = (.val (some d), st1)) := by
  constructor
  · intro env now req st d t hget hso hstale
    apply scrape_dynamic_miss
    unfold cacheServe
    rw [hget]
    have hfr : freshDict now d = false := by
      unfold freshDict
      rw [hso]
      have hno : ¬(now - 60 < t) := by omega
      simp [hno]
    simp [hfr]
  · intro env now1 now2 req req2 st d st1 hmiss hfirst hkey hfresh
    have hmiss2 : cacheServe now1 (alistGet st.cache (cacheKeyOf req)) = none := by
      rw [hmiss]
      rfl
    rw [scrape_dynamic_miss env now1 req st hmiss2] at hfirst
    obtain ⟨hc, hso, hne⟩ :=
      scrapeLoop_success env req now1 (cacheKeyOf req) req.max_retries.toNat 0 st d st1 hfirst
    apply scrape_dynamic_serve
    rw [hkey]
    have hlook : alistGet st1.cache (cacheKeyOf req) = some d := by
      rw [hc]
      exact alistGet_set_self _ _ _
    unfold cacheServe
    rw [hlook]
    have hie : d.isEmpty = false := by
      cases d with
      | nil => exact absurd rfl hne
      | cons hd tl => rfl
    have hfr : freshDict now2 d = true := by
      unfold freshDict
      rw [hso, hie]
      simp [hfresh]
    simp [hfr]

/-- C1 witness: a stale entry (age 90, TTL 60) is not served, and a
second call 30 seconds after a successful first call returns the cached
payload with the state unchanged. -/
theorem claim_C1_cache_ttl_witness :
    scrape_dynamic envOK 100 reqX stStale =
      scrapeLoop envOK reqX 100 (cacheKeyOf reqX) 0 reqX.max_retries.toNat stStale ∧
    scrape_dynamic envOK 130 reqX st1Val = (.val (some dVal), st1Val) :=
  ⟨claim_C1_cache_ttl.1 envOK 100 reqX stStale dStale 10 rfl rfl (by decide),
   claim_C1_cache_ttl.2 envOK 100 130 reqX reqX stEmpty dVal st1Val rfl rfl rfl (by decide)⟩

/-- C2: with a cache miss and max_retries m at least 1, an engine whose
every attempt fails with a retryable outcome (success false or a raised
exception) is invoked exactly m times; the raised HTTPException wraps
the cause of the last failure as a suffix; the backoff sleeps between
consecutive attempts are 2 to the attempt index (1s then 2s when m is
3).  And an engine that fails twice then succeeds yields the success
result after exactly 3 invocations with sleeps [1, 2]. -/
theorem claim_C2_retry_backoff :
    (∀ env now req st (m : Nat),
       req.max_retries.toNat = m → 1 ≤ m →
       cacheServe now (alistGet st.cache (cacheKeyOf req)) = none →
       (∀ k, k < m → isFailOutcome (env.engine (st.engineCalls + k)) = true) →
       scrape_dynamic env now req st =
         (.exn (.http 500 (finalFailMsg (env.engine (st.engineCalls + (m - 1))))),
          { st with engineCalls := st.engineCalls + m,
                    trace := st.trace ++ failEvts st.engineCalls 0 m }) ∧
       sleepsOf (failEvts st.engineCalls 0 m) =
         (List.range (m - 1)).map (fun a => 2 ^ a) ∧
       (∃ p, finalFailMsg (env.engine (st.engineCalls + (m - 1))) =
          p ++ causeOf (env.engine (st.engineCalls + (m - 1))))) ∧
    (∀ env now req st,
       req.max_retries = 3 →
       (match req.ai_extraction with
        | some ai => ai.custom_prompt
        | none => none) = none →
       cacheServe now (alistGet st.cache (cacheKeyOf req)) = none →
       isFailOutcome (env.engine st.engineCalls) = true →
       isFailOutcome (env.engine (st.engineCalls + 1)) = true →
       (∃ r, env.engine (st.engineCalls + 2) = .ret r ∧ r.success = true) →
       ∃ d st2, scrape_dynamic env now req st = (.val (some d), st2) ∧
         st2.engineCalls = st.engineCalls + 3 ∧
         sleepsOf (st2.trace.drop st.trace.length) = [1, 2]) := by
  constructor
  · intro env now req st m hm h1m hmiss hfail
    have hd := scrape_dynamic_miss env now req st hmiss
    rw [hm] at hd
    refine ⟨?_, ?_, ?_⟩
    · rw [hd, scrapeLoop_allFail env req now (cacheKeyOf req) m h1m 0 st hfail]
    · rw [sleepsOf_failEvts m st.engineCalls 0, List.range_eq_range']
    · cases env.engine (st.engineCalls + (m - 1)) with
      | ret r => exact ⟨"Scraping failed: 500: crawl4ai failed: ", rfl⟩
      | raised msg => exact ⟨"Scraping failed: ", rfl⟩
  · intro env now req st h3 hcp hmiss hf0 hf1 hsucc
    obtain ⟨r, hr, hrs⟩ := hsucc
    have hd := scrape_dynamic_miss env now req st hmiss
    have ht : req.max_retries.toNat = 3 := by rw [h3]; rfl
    rw [ht] at hd
    have hf1b : isFailOutcome
        (env.engine (pushSleep (bumpEngine st) (2 ^ 0)).engineCalls) = true := by
      simpa using hf1
    have e2 : (pushSleep (bumpEngine (pushSleep (bumpEngine st) (2 ^ 0))) (2 ^ 1)).engineCalls =
        st.engineCalls + 2 := by
      simp
    have hr2 : env.engine
        ((pushSleep (bumpEngine (pushSleep (bumpEngine st) (2 ^ 0))) (2 ^ 1)).engineCalls) =
        .ret r := by
      rw [e2]
      exact hr
    have step1 := scrapeLoop_fail_step env req now (cacheKeyOf req) 0 2 st hf0 (by omega)
    have step2 := scrapeLoop_fail_step env req now (cacheKeyOf req) 1 1
      (pushSleep (bumpEngine st) (2 ^ 0)) hf1b (by omega)
    have step3 := scrapeLoop_success_step env req now (cacheKeyOf req) 2 0
      (pushSleep (bumpEngine (pushSleep (bumpEngine st) (2 ^ 0))) (2 ^ 1)) r hr2 hrs
    have hval := (step1.trans step2).trans step3
    have hex := extract_state_nocustom env r req
      (bumpEngine (pushSleep (bumpEngine (pushSleep (bumpEngine st) (2 ^ 0))) (2 ^ 1))) hcp
    refine ⟨_, _, hd.trans hval, ?_, ?_⟩
    · rw [setCache_engineCalls, hex]
      simp
    · rw [setCache_trace, hex, bumpEngine_trace]
      simp only [pushSleep_trace, bumpEngine_trace, pushSleep_engineCalls,
        bumpEngine_engineCalls, List.append_assoc]
      rw [List.drop_left]
      simp [sleepsOf]

/-- The payload and final state of the two-failure run used as C2
witness data. -/
def reqY : ScrapeRequest := { url := "http://y" }

/-- C2 witness: an always-failing engine with m = 3 makes exactly three
calls then raises; a fail-fail-succeed engine returns the payload after
exactly three calls with sleeps [1, 2]. -/
theorem claim_C2_retry_backoff_witness :
    (scrape_dynamic envFailAll 0 reqX stEmpty =
       (.exn (.http 500 (finalFailMsg (envFailAll.engine (stEmpty.engineCalls + (3 - 1))))),
        { stEmpty with engineCalls := stEmpty.engineCalls + 3,
                       trace := stEmpty.trace ++ failEvts stEmpty.engineCalls 0 3 }) ∧
     sleepsOf (failEvts stEmpty.engineCalls 0 3) =
       (List.range (3 - 1)).map (fun a => 2 ^ a) ∧
     (∃ p, finalFailMsg (envFailAll.engine (stEmpty.engineCalls + (3 - 1))) =
        p ++ causeOf (envFailAll.engine (stEmpty.engineCalls + (3 - 1))))) ∧
    (∃ d st2, scrape_dynamic envFailTwice 0 reqY stEmpty = (.val (some d), st2) ∧
       st2.engineCalls = stEmpty.engineCalls + 3 ∧
       sleepsOf (st2.trace.drop stEmpty.trace.length) = [1, 2]) :=
  ⟨claim_C2_retry_backoff.1 envFailAll 0 reqX stEmpty 3 rfl (by omega) rfl
     (fun k _ => rfl),
   claim_C2_retry_backoff.2 envFailTwice 0 reqY stEmpty rfl rfl rfl rfl rfl
     ⟨okResult, rfl, rfl⟩⟩

/-- The request and engine of the C5 counterexample: a malformed-input
style failure raised on every attempt, budget of two attempts. -/
def envFatal : ScrapeEnv :=
  { engine := fun _ => .raised "unsupported URL scheme", dom := domEmpty }

def reqFatal : ScrapeRequest := { url := "nonsense", max_retries := 2 }

/-- C5 counterexample: the claim says a fatal failure (malformed input)
is surfaced immediately on first occurrence and never retried; but with
max_retries 2 and an engine raising a malformed-URL error on every
attempt, scrape_dynamic invokes the engine twice, sleeping in between,
and surfaces the failure only after the second attempt. -/
theorem claim_C5_cex :
    (scrape_dynamic envFatal 0 reqFatal stEmpty).2.engineCalls = 2 ∧
    sleepsOf (scrape_dynamic envFatal 0 reqFatal stEmpty).2.trace = [1] ∧
    (scrape_dynamic envFatal 0 reqFatal stEmpty).1 =
      .exn (.http 500 ("Scraping failed: unsupported URL scheme")) := by
  refine ⟨rfl, rfl, rfl⟩

/-- C5 amended: the code has no fatal classification: an attempt that
raises an exception, malformed input included, is retried like any other
failure while budget remains; the failure is surfaced (wrapped in
HTTPException 500) only on the final attempt, after exactly max_retries
engine invocations. -/
theorem claim_C5_fatal_retried :
    ∀ env now req st (m : Nat),
      req.max_retries.toNat = m → 1 ≤ m →
      cacheServe now (alistGet st.cache (cacheKeyOf req)) = none →
      (∀ k, k < m → ∃ msg, env.engine (st.engineCalls + k) = .raised msg) →
      (scrape_dynamic env now req st).2.engineCalls = st.engineCalls + m ∧
      ∃ msg, env.engine (st.engineCalls + (m - 1)) = .raised msg ∧
        (scrape_dynamic env now req st).1 =
          .exn (.http 500 ("Scraping failed: " ++ msg)) := by
  intro env now req st m hm h1m hmiss hraise
  have hfail : ∀ k, k < m → isFailOutcome (env.engine (st.engineCalls + k)) = true := by
    intro k hk
    obtain ⟨msg, hmsg⟩ := hraise k hk
    rw [hmsg]
    rfl
  have hd := scrape_dynamic_miss env now req st hmiss
  rw [hm] at hd
  rw [hd, scrapeLoop_allFail env req now (cacheKeyOf req) m h1m 0 st hfail]
  obtain ⟨msg, hmsg⟩ := hraise (m - 1) (by omega)
  refine ⟨rfl, msg, hmsg, ?_⟩
  rw [hmsg]
  rfl

/-- C5 amended witness: with the raising engine and budget two, the
count is two and the error wraps the raised message. -/
theorem claim_C5_fatal_retried_witness :
    (scrape_dynamic envFatal 0 reqFatal stEmpty).2.engineCalls = stEmpty.engineCalls + 2 ∧
    ∃ msg, envFatal.engine (stEmpty.engineCalls + (2 - 1)) = .raised msg ∧
      (scrape_dynamic envFatal 0 reqFatal stEmpty).1 =
        .exn (.http 500 ("Scraping failed: " ++ msg)) :=
  claim_C5_fatal_retried envFatal 0 reqFatal stEmpty 2 rfl (by omega) rfl
    (fun k _ => ⟨"unsupported URL scheme", rfl⟩)

/-- Requests for the C3 key-derivation claims: reqB differs from reqA
only in max_retries, reqC only in one selector expression, and reqA2 is
reqA written out again. -/
def reqA : ScrapeRequest :=
  { url := "http://example.com",
    selectors := some [{ name := "price", selector := "[data-price]" }] }

def reqB : ScrapeRequest := { reqA with max_retries := 4 }

def reqC : ScrapeRequest :=
  { url := "http://example.com",
    selectors := some [{ name := "price", selector := "[data-cost]" }] }

def reqA2 : ScrapeRequest :=
  { url := "http://example.com",
    selectors := some [{ name := "price", selector := "[data-price]" }] }

/-- C3 counterexample: two requests with no explicit cache_key and
identical URL, selector list and extraction flags, differing only in
max_retries, derive different cache keys, because the key hashes the
full serialized request.  The claim asserts they would be equal. -/
theorem claim_C3_cex :
    reqA.url = reqB.url ∧ reqA.selectors = reqB.selectors ∧
    reqA.extract_structured_data = reqB.extract_structured_data ∧
    reqA.extract_links = reqB.extract_links ∧
    reqA.extract_images = reqB.extract_images ∧
    reqA.extract_text = reqB.extract_text ∧
    reqA.ai_extraction = reqB.ai_extraction ∧
    reqA.cache_key = none ∧ reqB.cache_key = none ∧
    cacheKeyOf reqA ≠ cacheKeyOf reqB :=
  ⟨rfl, rfl, rfl, rfl, rfl, rfl, rfl, rfl, rfl, by decide⟩

/-- C3 amended: with no explicit cache_key the derived key is a function
of the URL together with the full serialized request (webhook and
max_retries included), so requests agreeing on every serialized field
share a key; and changing a selector expression changes the key, shown
at the exhibited pair. -/
theorem claim_C3_cache_key :
    (∀ r1 r2 : ScrapeRequest,
       r1.cache_key = none → r2.cache_key = none →
       r1.url = r2.url → reqDictStr r1 = reqDictStr r2 →
       cacheKeyOf r1 = cacheKeyOf r2) ∧
    cacheKeyOf reqA ≠ cacheKeyOf reqC := by
  constructor
  · intro r1 r2 h1 h2 hu hs
    unfold cacheKeyOf
    rw [h1, h2, hu, hs]
  · decide

/-- C3 amended witness: two identical requests share the derived key. -/
theorem claim_C3_cache_key_witness :
    cacheKeyOf reqA = cacheKeyOf reqA2 ∧ cacheKeyOf reqA ≠ cacheKeyOf reqC :=
  ⟨claim_C3_cache_key.1 reqA reqA2 rfl rfl rfl rfl, claim_C3_cache_key.2⟩

/-- The XPath text branch (prefilter on raw text, then strip, then drop
empties) computes the same list as the plain trimmed-text-minus-empties
description. -/
theorem textList_xpath_eq (es : List Element) :
    (((es.filter (fun e => e.text != "")).map (fun e => pyStrip e.text)).filter
       (fun v => v != "")) =
    ((es.map (fun e => pyStrip e.text)).filter (fun v => v != "")) := by
  induction es with
  | nil => rfl
  | cons e t ih =>
    by_cases h : e.text = ""
    · have hs : pyStrip "" = "" := rfl
      simp [h, hs, ih]
    · simp [h, ih, List.filter_cons]

/-- C4: per-selector extraction semantics.  A selector evaluation error
is caught and recorded as null; no matches give null; attribute mode
gives the ordered per-match attribute values with missing or empty ones
dropped; text mode gives the ordered trimmed texts with empty strings
dropped (identically for CSS and XPath); and in a full scrape whose
selector names are unique, each field holds exactly the extraction of
its own selector, independent of every other selector, while the
request as a whole still succeeds. -/
theorem claim_C4_selector_fields :
    (∀ dom sc msg,
       (if sc.is_xpath then dom.xpath sc.selector else dom.css sc.selector) = .raised msg →
       extractSelector dom sc = .scalar .null) ∧
    (∀ dom sc,
       (if sc.is_xpath then dom.xpath sc.selector else dom.css sc.selector) = .elems [] →
       extractSelector dom sc = .scalar .null) ∧
    (∀ dom sc a es,
       (if sc.is_xpath then dom.xpath sc.selector else dom.css sc.selector) = .elems es →
       es ≠ [] → sc.attr = some a → a ≠ "" →
       extractSelector dom sc = .scalar (.strs (attrValues es a))) ∧
    (∀ dom sc es,
       (if sc.is_xpath then dom.xpath sc.selector else dom.css sc.selector) = .elems es →
       es ≠ [] → sc.attr = none →
       extractSelector dom sc =
         .scalar (.strs ((es.map (fun e => pyStrip e.text)).filter (fun v => v != "")))) ∧
    (∀ env now req st r scs sc,
       cacheServe now (alistGet st.cache (cacheKeyOf req)) = none →
       1 ≤ req.max_retries.toNat →
       env.engine st.engineCalls = .ret r → r.success = true →
       req.selectors = some scs →
       (scs.map ScrapeSelector.name).Nodup →
       sc ∈ scs →
       sc.name ∉ ["structured_data", "links", "images", "clean_text", "ai_extraction",
         "_scraped_on", "_url", "_crawl4ai_used"] →
       ∃ d st2, scrape_dynamic env now req st = (.val (some d), st2) ∧
         alistGet d sc.name = some (extractSelector env.dom sc)) := by
  refine ⟨?_, ?_, ?_, ?_, ?_⟩
  · intro dom sc msg h
    unfold extractSelector
    rw [h]
  · intro dom sc h
    unfold extractSelector
    rw [h]
    rfl
  · intro dom sc a es h hne hattr ha
    unfold extractSelector
    rw [h, hattr]
    have hie : es.isEmpty = false := by
      cases es with
      | nil => exact absurd rfl hne
      | cons hd tl => rfl
    simp [hie, ha]
  · intro dom sc es h hne hattr
    unfold extractSelector
    rw [h, hattr]
    have hie : es.isEmpty = false := by
      cases es with
      | nil => exact absurd rfl hne
      | cons hd tl => rfl
    cases hx : sc.is_xpath with
    | true => simp [hie, textList_xpath_eq]
    | false => simp [hie]
  · intro env now req st r scs sc hmiss h1m heng hrs hsel hnd hmem hres
    simp only [List.mem_cons, List.mem_singleton, List.not_mem_nil] at hres
    push_neg at hres
    obtain ⟨g1, g2, g3, g4, g5, g6, g7, g8, -⟩ := hres
    have hd := scrape_dynamic_miss env now req st hmiss
    obtain ⟨m, hm⟩ : ∃ m, req.max_retries.toNat = m + 1 :=
      ⟨req.max_retries.toNat - 1, by omega⟩
    rw [hm] at hd
    rw [scrapeLoop_success_step env req now (cacheKeyOf req) 0 m st r heng hrs] at hd
    refine ⟨_, _, hd, ?_⟩
    rw [alistGet_stampMeta_ne _ _ _ _ g6 g7 g8]
    rw [extract_keeps env r req (bumpEngine st) sc.name g1 g2 g3 g4 g5]
    rw [hsel]
    exact selData_lookup env.dom scs [] sc hnd hmem

/-- Witness fixtures for C4: a page where [data-price] matches one
element with padded text, the selector bad( raises, .none matches
nothing, and a matches two anchors of which one has an empty href. -/
def elemP : Element := { text := "  42.50 " }

def elemA1 : Element := { text := "link1", attrs := [("href", "http://l")] }

def elemA2 : Element := { text := "link2", attrs := [("href", "")] }

def domDemo : DomEnv :=
  { css := fun s =>
      if s = "[data-price]" then .elems [elemP]
      else if s = "bad(" then .raised "SelectorSyntaxError"
      else if s = "a" then .elems [elemA1, elemA2]
      else .elems [],
    xpath := fun _ => .elems [] }

def envDemo : ScrapeEnv := { engine := fun _ => .ret okResult, dom := domDemo }

def selPrice : ScrapeSelector := { name := "price", selector := "[data-price]" }

def selBad : ScrapeSelector := { name := "broken", selector := "bad(" }

def selMissing : ScrapeSelector := { name := "missing", selector := ".none" }

def selHref : ScrapeSelector := { name := "link", selector := "a", attr := some "href" }

def reqSel : ScrapeRequest :=
  { url := "http://s", selectors := some [selPrice, selBad, selMissing, selHref] }

/-- C4 witness: the error selector gives null, the no-match selector
gives null, attribute mode keeps only the nonempty href, text mode
trims, and the full scrape succeeds with the price field equal to its
own extraction. -/
theorem claim_C4_selector_fields_witness :
    extractSelector domDemo selBad = .scalar .null ∧
    extractSelector domDemo selMissing = .scalar .null ∧
    extractSelector domDemo selHref = .scalar (.strs (attrValues [elemA1, elemA2] "href")) ∧
    extractSelector domDemo selPrice =
      .scalar (.strs (([elemP].map (fun e => pyStrip e.text)).filter (fun v => v != ""))) ∧
    (∃ d st2, scrape_dynamic envDemo 0 reqSel stEmpty = (.val (some d), st2) ∧
       alistGet d "price" = some (extractSelector envDemo.dom selPrice)) :=
  ⟨claim_C4_selector_fields.1 domDemo selBad "SelectorSyntaxError" rfl,
   claim_C4_selector_fields.2.1 domDemo selMissing rfl,
   claim_C4_selector_fields.2.2.1 domDemo selHref "href" [elemA1, elemA2] rfl
     (by decide) rfl (by decide),
   claim_C4_selector_fields.2.2.2.1 domDemo selPrice [elemP] rfl (by decide) rfl,
   claim_C4_selector_fields.2.2.2.2 envDemo 0 reqSel stEmpty okResult
     [selPrice, selBad, selMissing, selHref] selPrice rfl (by decide) rfl rfl rfl
     (by decide) (by decide) (by decide)⟩

/-- C6 counterexample: the claim says every endpoint, the legacy stock
endpoint included, returns a structured success or failure body; but
scrape_stock has no exception handling, so a scraping failure (engine
raising on all three attempts here) escapes the handler as a raised
HTTPException rather than a structured body. -/
theorem claim_C6_cex :
    (scrape_stock envRaise 0 "AAPL" none stEmpty 7).1 =
      .fault (.http 500 "Scraping failed: boom") := rfl

/-- C6 amended: the /scrape, /scrape/simple and /scrape/fast handlers
catch every exception and always answer with a structured body, as does
the stock endpoint when a webhook is supplied (it only schedules a
task); but the stock endpoint without a webhook propagates any raised
scrape exception to the framework unchanged. -/
theorem claim_C6_endpoints :
    (∀ env now req st tid, ∃ out st2,
       scrape_dynamic_endpoint env now req st tid = (.body out, st2)) ∧
    (∀ env now u ea st, ∃ out st2, scrape_simple env now u ea st = (.body out, st2)) ∧
    (∀ env now u eb st, ∃ out st2, scrape_fast_endpoint env now u eb st = (.body out, st2)) ∧
    (∀ env now symbol w st tid, ∃ out st2,
       scrape_stock env now symbol (some w) st tid = (.body out, st2)) ∧
    (∀ env now symbol st tid e st1,
       scrape_dynamic env now (stockRequest symbol none) st = (.exn e, st1) →
       scrape_stock env now symbol none st tid = (.fault e, st1)) := by
  refine ⟨?_, ?_, ?_, ?_, ?_⟩
  · intro env now req st tid
    unfold scrape_dynamic_endpoint
    cases hw : req.webhook with
    | some w => exact ⟨_, _, rfl⟩
    | none =>
      cases hsc : scrape_dynamic env now req st with
      | mk res st1 =>
        cases res with
        | val o =>
          cases o with
          | some d => exact ⟨_, _, rfl⟩
          | none => exact ⟨_, _, rfl⟩
        | exn e =>
          cases e with
          | http s det => exact ⟨_, _, rfl⟩
          | other m => exact ⟨_, _, rfl⟩
  · intro env now u ea st
    unfold scrape_simple
    cases hsc : scrape_dynamic env now (simpleRequest u ea) st with
    | mk res st1 =>
      cases res with
      | val o =>
        cases o with
        | some d => exact ⟨_, _, rfl⟩
        | none => exact ⟨_, _, rfl⟩
      | exn e => exact ⟨_, _, rfl⟩
  · intro env now u eb st
    unfold scrape_fast_endpoint
    cases hsc : scrape_fast env now u eb st with
    | mk res st1 =>
      cases res with
      | val d => exact ⟨_, _, rfl⟩
      | exn e => exact ⟨_, _, rfl⟩
  · intro env now symbol w st tid
    exact ⟨_, _, rfl⟩
  · intro env now symbol st tid e st1 hsc
    unfold scrape_stock
    rw [hsc]

/-- C6 amended witness: the /scrape handler answers a body even for the
always-raising engine, and the stock endpoint propagates the concrete
wrapped failure. -/
theorem claim_C6_endpoints_witness :
    (∃ out st2, scrape_dynamic_endpoint envRaise 0 reqX stEmpty 7 = (.body out, st2)) ∧
    scrape_stock envRaise 0 "AAPL" none stEmpty 7 =
      (.fault (.http 500 "Scraping failed: boom"),
       { stEmpty with engineCalls := 3, trace := failEvts 0 0 3 }) :=
  ⟨claim_C6_endpoints.1 envRaise 0 reqX stEmpty 7,
   claim_C6_endpoints.2.2.2.2 envRaise 0 "AAPL" stEmpty 7
     (.http 500 "Scraping failed: boom")
     { stEmpty with engineCalls := 3, trace := failEvts 0 0 3 } rfl⟩

/-- The webhook request of the C7/C8 witnesses. -/
def reqW : ScrapeRequest := { url := "http://x", webhook := some "http://hook" }

/-- Its scrape payload at time 100 and the state after the scrape. -/
def dW : PData :=
  [("_scraped_on", .scalar (.int 100)), ("_url", .scalar (.str "http://x")),
   ("_crawl4ai_used", .scalar (.boolv true))]

def st1W : SysState :=
  { cache := [(cacheKeyOf reqW, dW)], engineCalls := 1, postCalls := 0,
    trace := [{ kind := .engineCall 0 }] }

/-- C7: a request with a webhook makes the endpoint return at once: the
response carries success, the echoed webhook URL and a task id, no data
field, the state is untouched (zero engine calls before returning), and
the with_webhook task is scheduled.  And when the scrape succeeds and
the first delivery attempt goes through, the whole task issues exactly
one outbound post, carrying the scrape result to the webhook URL. -/
theorem claim_C7_webhook :
    (∀ env now req st tid w, req.webhook = some w →
       scrape_dynamic_endpoint env now req st tid =
         (.body { resp := { success := true, data := none, error := none,
                            webhook := some w, task_id := some tid, scraped_on := none },
                  spawned := some req }, st)) ∧
    (∀ env wenv now req st st1 d w,
       req.webhook = some w →
       scrape_dynamic env now req st = (.val (some d), st1) →
       wenv.post st1.postCalls = true →
       (webhookEvts env wenv now req st).filter (fun e => e.kind.isPost) =
         [{ kind := .postTo w (some d) }]) := by
  constructor
  · intro env now req st tid w hw
    unfold scrape_dynamic_endpoint
    rw [hw]
  · intro env wenv now req st st1 d w hw hsc hpost
    rw [webhookEvts_first_ok env wenv now req st st1 d w hsc hw hpost]
    rw [List.filter_append]
    have h1 : (scrapePhaseEvts env now req st).filter (fun e => e.kind.isPost) = [] := by
      rw [List.filter_eq_nil_iff]
      intro e he
      have hp := (scrapePhaseEvts_noPost env now req st e he).1
      simp [hp]
    rw [h1]
    rfl

/-- C7 witness: the endpoint answers immediately with the handle and no
data for the concrete webhook request, and the spawned task with a
succeeding engine and first-attempt delivery posts exactly once. -/
theorem claim_C7_webhook_witness :
    scrape_dynamic_endpoint envOK 100 reqW stEmpty 42 =
      (.body { resp := { success := true, data := none, error := none,
                         webhook := some "http://hook", task_id := some 42,
                         scraped_on := none },
               spawned := some reqW }, stEmpty) ∧
    (webhookEvts envOK wenvOK 100 reqW stEmpty).filter (fun e => e.kind.isPost) =
      [{ kind := .postTo "http://hook" (some dW) }] :=
  ⟨claim_C7_webhook.1 envOK 100 reqW stEmpty 42 "http://hook" rfl,
   claim_C7_webhook.2 envOK wenvOK 100 reqW stEmpty st1W dW "http://hook" rfl rfl rfl⟩

/-- C8: a cancellation delivered at any await point of the fetch-and-
backoff phase of a webhook task (the i-th event for i below the scrape
phase length) leaves a trace prefix containing no webhook post, and the
task settles Cancelled, because no handler on that path catches
CancelledError; and after app_shutdown cancels the non-terminal tasks
and gathers them all, every task is in a terminal state. -/
theorem claim_C8_shutdown_cancel :
    (∀ env wenv now req st i,
       i < (scrapePhaseEvts env now req st).length →
       ((webhookEvts env wenv now req st).take i).filter (fun e => e.kind.isPost) = [] ∧
       taskStateOnCancel (webhookEvts env wenv now req st) i = .cancelled) ∧
    (∀ ts, ∀ t ∈ app_shutdown ts, isTerminal t = true) := by
  constructor
  · intro env wenv now req st i hi
    obtain ⟨rest, hdec⟩ := webhookEvts_decomp env wenv now req st
    constructor
    · rw [hdec, List.take_append_of_le_length (le_of_lt hi)]
      rw [List.filter_eq_nil_iff]
      intro e he
      have hmem := List.mem_of_mem_take he
      have hp := (scrapePhaseEvts_noPost env now req st e hmem).1
      simp [hp]
    · unfold taskStateOnCancel
      rw [hdec, List.getElem?_append_left hi, List.getElem?_eq_getElem hi]
      have hg := (scrapePhaseEvts_noPost env now req st _
        (List.getElem_mem hi)).2
      simp [hg]
  · intro ts t ht
    unfold app_shutdown at ht
    obtain ⟨t0, _, rfl⟩ := List.mem_map.mp ht
    by_cases h : isTerminal t0 = true
    · simp [h]
    · rw [if_neg h]
      rfl

/-- C8 witness: with the always-raising engine the scrape phase is
nonempty; cancelling at its first await point yields no posts and a
Cancelled task, and a running task is terminal after shutdown. -/
theorem claim_C8_shutdown_cancel_witness :
    (((webhookEvts envRaise wenvOK 100 reqW stEmpty).take 0).filter
       (fun e => e.kind.isPost) = [] ∧
     taskStateOnCancel (webhookEvts envRaise wenvOK 100 reqW stEmpty) 0 = .cancelled) ∧
    isTerminal .cancelled = true :=
  ⟨claim_C8_shutdown_cancel.1 envRaise wenvOK 100 reqW stEmpty 0 (by decide),
   claim_C8_shutdown_cancel.2 [.running] .cancelled (by decide)⟩

/-- A fetched page of 1001 characters, one past the truncation bound. -/
def bigHtml : String := String.mk (List.replicate 1001 'a')

def envBig : ScrapeEnv :=
  { engine := fun _ => .ret { success := true, html := bigHtml }, dom := domEmpty }

/-- The html field the fast endpoint returns for that page. -/
def c9field : Option FieldValue :=
  match (scrape_fast envBig 0 "u" true stEmpty).1 with
  | .val d => alistGet d "html"
  | .exn _ => none

/-- C9 counterexample: for a 1001-character page the returned html field
is the first 1000 characters with an ellipsis marker appended, so it is
not equal to the plain first-1000-character truncation the claim
states. -/
theorem claim_C9_cex :
    c9field = some (.scalar (.str (pySlice bigHtml 1000 ++ "..."))) ∧
    c9field ≠ some (.scalar (.str (pySlice bigHtml 1000))) := by
  have hc : c9field = some (.scalar (.str (pySlice bigHtml 1000 ++ "..."))) := rfl
  refine ⟨hc, ?_⟩
  rw [hc]
  intro h
  simp only [Option.some.injEq, FieldValue.scalar.injEq, ScalarV.str.injEq] at h
  have hlen := congrArg String.length h
  rw [String.length_append] at hlen
  have h3 : ("..." : String).length = 3 := rfl
  rw [h3] at hlen
  omega

/-- C9 amended: on a successful fast scrape with extract_basic, the html
field is the whole page when it is 1000 characters or shorter, and
otherwise its first 1000 characters with the three-character ellipsis
marker appended. -/
theorem claim_C9_fast_truncation :
    ∀ env now u st r,
      env.engine st.engineCalls = .ret r → r.success = true →
      ∃ d st1, scrape_fast env now u true st = (.val d, st1) ∧
        alistGet d "html" = some (.scalar (.str
          (if 1000 < r.html.length then pySlice r.html 1000 ++ "..." else r.html))) := by
  intro env now u st r heng hrs
  unfold scrape_fast
  rw [heng]
  simp only [hrs]
  rw [if_neg (by decide : ¬(true = false))]
  refine ⟨_, _, rfl, ?_⟩
  rw [alistGet_set_ne _ _ _ _ (by decide), alistGet_set_ne _ _ _ _ (by decide),
    alistGet_set_ne _ _ _ _ (by decide)]
  simp only [eq_self_iff_true, if_true]
  rw [alistGet_set_ne _ _ _ _ (by decide), alistGet_set_ne _ _ _ _ (by decide),
    alistGet_set_self]
  rfl

/-- C9 amended witness: the concrete 1001-character page yields the
truncation with the marker. -/
theorem claim_C9_fast_truncation_witness :
    ∃ d st1, scrape_fast envBig 0 "u" true stEmpty = (.val d, st1) ∧
      alistGet d "html" = some (.scalar (.str
        (if 1000 < bigHtml.length then pySlice bigHtml 1000 ++ "..." else bigHtml))) :=
  claim_C9_fast_truncation envBig 0 "u" stEmpty { success := true, html := bigHtml } rfl rfl

/-- The zero-budget request of C10. -/
def req0 : ScrapeRequest := { url := "http://x", max_retries := 0 }

/-- C10 counterexample: for max_retries 0 with an empty cache the
endpoint reports success false (the handler crashes calling get on the
Python None scrape result and its generic except turns that into an
error body), where the claim asserts success true. -/
theorem claim_C10_cex :
    scrape_dynamic_endpoint envOK 5 req0 stEmpty 1 =
      (.body { resp := { success := false,
                         error := some ("Unexpected error: " ++ pyNoneGetMsg) },
               spawned := none }, stEmpty) ∧
    scrape_dynamic_endpoint envOK 5 req0 stEmpty 1 ≠
      (.body { resp := { success := true }, spawned := none }, stEmpty) := by
  constructor
  · rfl
  · decide

/-- C10 amended: with max_retries at most 0 and no fresh cache entry,
scrape_dynamic performs no engine call, raises nothing, and returns
Python None with the state untouched; the synchronous /scrape endpoint
then reports success false with the AttributeError text from calling
get on None, not success true. -/
theorem claim_C10_zero_retries :
    ∀ env now req st tid,
      req.max_retries ≤ 0 →
      cacheServe now (alistGet st.cache (cacheKeyOf req)) = none →
      req.webhook = none →
      scrape_dynamic env now req st = (.val none, st) ∧
      scrape_dynamic_endpoint env now req st tid =
        (.body { resp := { success := false,
                           error := some ("Unexpected error: " ++ pyNoneGetMsg) },
                 spawned := none }, st) := by
  intro env now req st tid hm hmiss hw
  have ht : req.max_retries.toNat = 0 := by omega
  have hsd : scrape_dynamic env now req st = (.val none, st) := by
    rw [scrape_dynamic_miss env now req st hmiss, ht, scrapeLoop_zero]
  refine ⟨hsd, ?_⟩
  unfold scrape_dynamic_endpoint
  rw [hw, hsd]

/-- C10 amended witness at the concrete zero-budget request. -/
theorem claim_C10_zero_retries_witness :
    scrape_dynamic envOK 5 req0 stEmpty = (.val none, stEmpty) ∧
    scrape_dynamic_endpoint envOK 5 req0 stEmpty 1 =
      (.body { resp := { success := false,
                         error := some ("Unexpected error: " ++ pyNoneGetMsg) },
               spawned := none }, stEmpty) :=
  claim_C10_zero_retries envOK 5 req0 stEmpty 1 (by decide) rfl rfl
